import Mathlib

/-!
Verification of the Heltec-Skelter GNSS tracker firmware (`src/src/main.h`,
class `HTITTracker`) against its natural-language specification.

The C++ code is shallowly embedded:
* `float`/`double` values become `ℚ` (the NMEA fields and battery thresholds
  are decimal constants; no claim depends on binary rounding of arithmetic);
* machine integers (`int`) become `Int`, `unsigned long` timestamps become
  `Nat` (the claims' scenarios stay far below the 2^32 wrap of `millis()`);
* the 512-byte EEPROM is a byte-addressed memory `Nat → Nat`; `EEPROM.put`
  of a `double` writes its 8-byte object representation, so the persistence
  layer is modelled at the byte level, parameterised by the 8-byte encoding
  of each stored `double`;
* C strings become `List Char`; the libc helpers `atoi`/`atof` are modelled
  in their decimal form (sign, digits, fraction — NMEA fields carry no
  exponent notation, which is the only libc feature not reproduced);
* the math library calls (`sin`/`cos`/`atan2`/`sqrt`) used only by the
  Haversine distance inside `calculateSpeed` are abstracted as an explicit
  `dist` parameter: no claim depends on the numeric distance value;
* the single polled loop becomes explicit state passing: `checkButton`,
  `processNMEALine` and `update` are step functions on a `Tracker` record
  mirroring the class fields (plus the function-local statics of
  `checkButton`, which shadow the same-named members in the source).
-/

namespace Heltec

/-! ## Byte-level EEPROM model (EEPROM.put / EEPROM.get are raw-byte copies) -/

/-- Write the byte list `bs` at consecutive addresses starting at `addr`
(the effect of `EEPROM.put(addr, obj)` for an object whose representation
is `bs`). -/
def writeBytes (mem : Nat → Nat) (addr : Nat) (bs : List Nat) : Nat → Nat :=
  fun a => if addr ≤ a ∧ a < addr + bs.length then bs.getD (a - addr) 0 else mem a

/-- Read `n` consecutive bytes starting at `addr` (the effect of
`EEPROM.get(addr, obj)` for an `n`-byte object). -/
def readBytes (mem : Nat → Nat) (addr n : Nat) : List Nat :=
  (List.range n).map (fun i => mem (addr + i))

/-- Object representation of a C++ `bool` (one byte, 1 for true, 0 for false). -/
def boolByte (b : Bool) : Nat := if b then 1 else 0

/-- Little-endian bytes of the `uint32_t` magic `EEPROM_MAGIC = 0xA5B4`. -/
def magicBytes : List Nat := [0xB4, 0xA5, 0x00, 0x00]

/-- Read a little-endian `uint32_t` at `addr`. -/
def readU32 (mem : Nat → Nat) (addr : Nat) : Nat :=
  mem addr + 256 * mem (addr + 1) + 65536 * mem (addr + 2) + 16777216 * mem (addr + 3)

/-- A waypoint as it crosses the persistence boundary: the 8-byte object
representations of `lat` and `lon` (IEEE-754 doubles) and the `isSet` flag.
The `name` field is not persisted by `saveWaypointsToEEPROM` at all. -/
structure WaypointBytes where
  latB : List Nat
  lonB : List Nat
  isSet : Bool
deriving DecidableEq, Repr

/-- One iteration of the save loop of `saveWaypointsToEEPROM`:
`baseAddr = ADDR_WAYPOINT1_LAT + i * 20` (= `4 + 20*i`),
`EEPROM.put(baseAddr, lat)`, `EEPROM.put(baseAddr + 8, lon)`,
`EEPROM.put(ADDR_WAYPOINT1_SET + i, isSet)` (= address `52 + i`). -/
def saveOneWaypoint (wps : Fin 3 → WaypointBytes) (i : Fin 3) (mem : Nat → Nat) : Nat → Nat :=
  let base := 4 + 20 * i.val
  let m1 := writeBytes mem base (wps i).latB
  let m2 := writeBytes m1 (base + 8) (wps i).lonB
  writeBytes m2 (52 + i.val) [boolByte (wps i).isSet]

/-- `saveWaypointsToEEPROM`: magic at address 0, then the three waypoints in
order (the `EEPROM.commit()` flushes the same bytes and is a no-op here). -/
def saveWaypointsToEEPROMBytes (wps : Fin 3 → WaypointBytes) (mem : Nat → Nat) : Nat → Nat :=
  saveOneWaypoint wps 2 (saveOneWaypoint wps 1 (saveOneWaypoint wps 0 (writeBytes mem 0 magicBytes)))

/-- `loadWaypointsFromEEPROM`: on magic mismatch reset all three waypoints to
unset (lat = lon = 0.0, whose double representation is eight zero bytes) and
write the defaults back; otherwise read each waypoint's fields from the same
addresses the save used.  Returns the loaded store and the (possibly
rewritten) memory.  A loaded `isSet` is the C++ reading of the stored byte as
`bool`: false exactly when the byte is zero. -/
def loadWaypointsFromEEPROMBytes (mem : Nat → Nat) : (Fin 3 → WaypointBytes) × (Nat → Nat) :=
  if readU32 mem 0 ≠ 0xA5B4 then
    let d : Fin 3 → WaypointBytes := fun _ => ⟨List.replicate 8 0, List.replicate 8 0, false⟩
    (d, saveWaypointsToEEPROMBytes d mem)
  else
    (fun i =>
      { latB := readBytes mem (4 + 20 * i.val) 8
        lonB := readBytes mem (4 + 20 * i.val + 8) 8
        isSet := mem (52 + i.val) != 0 }, mem)

/-! ## C string helpers: atoi / atof (decimal), strchr-style comma scanning -/

/-- The characters `isspace` accepts in the C locale. -/
def isSpaceC (c : Char) : Bool :=
  c = ' ' ∨ c = '\t' ∨ c = '\n' ∨ c = '\x0b' ∨ c = '\x0c' ∨ c = '\r'

/-- Value of the maximal leading run of decimal digits (0 when there is none),
as accumulated by `atoi`. -/
def digitsVal (l : List Char) : Nat :=
  (l.takeWhile Char.isDigit).foldl (fun a c => 10 * a + (c.toNat - 48)) 0

/-- C `atoi`: skip whitespace, optional sign, leading digits; 0 on no digits
(the empty list has head default `' '`, falling through to `digitsVal [] = 0`). -/
def atoiC (l : List Char) : Int :=
  let l1 := l.dropWhile isSpaceC
  if l1.headD ' ' = '-' then -(digitsVal l1.tail : Int)
  else if l1.headD ' ' = '+' then (digitsVal l1.tail : Int)
  else (digitsVal l1 : Int)

/-- Fractional value of the leading digit run (for the digits after `.`). -/
def fracVal (l : List Char) : ℚ :=
  (l.takeWhile Char.isDigit).foldr (fun c acc => (((c.toNat - 48 : Nat) : ℚ) + acc) / 10) 0

/-- Magnitude part of C `atof`: integer digits, optional `.` and fraction. -/
def atofPos (l : List Char) : ℚ :=
  let rest := l.dropWhile Char.isDigit
  (digitsVal l : ℚ) + (if rest.headD ' ' = '.' then fracVal rest.tail else 0)

/-- C `atof` on the decimal notation NMEA uses (no exponent/hex forms). -/
def atofQ (l : List Char) : ℚ :=
  let l1 := l.dropWhile isSpaceC
  if l1.headD ' ' = '-' then -(atofPos l1.tail)
  else if l1.headD ' ' = '+' then atofPos l1.tail
  else atofPos l1

/-- `strchr(l, ',')` followed by `+ 1`: the suffix just after the first
comma, or `none` when the line has no comma left. -/
def restAfterComma (l : List Char) : Option (List Char) :=
  match l.dropWhile (fun c => c != ',') with
  | [] => none
  | _ :: rest => some rest

/-- Split a line at every comma (`k` commas give `k + 1` fields). -/
def splitComma : List Char → List (List Char)
  | [] => [[]]
  | c :: rest =>
    if c = ',' then [] :: splitComma rest
    else
      match splitComma rest with
      | [] => [[c]]
      | f :: fs => (c :: f) :: fs

/-- Skip characters until `n` commas have been consumed, as the field-skip
loops of `parseGGAfixQuality`/`parseGGAHDOP` do; `none` when the string ends
before the `n`-th comma. -/
def skipCommas : Nat → List Char → Option (List Char)
  | 0, l => some l
  | _ + 1, [] => none
  | n + 1, c :: rest => if c = ',' then skipCommas n rest else skipCommas (n + 1) rest

/-- `strncmp(line, pat, pat.length) == 0`: `pat` is a leading run of `line`. -/
def strncmpPre : List Char → List Char → Bool
  | [], _ => true
  | _ :: _, [] => false
  | p :: ps, c :: cs => p == c && strncmpPre ps cs

/-! ## NMEA field parsers -/

/-- `parseGSVinView`: three `strchr` hops to the 4th comma-delimited field,
then `atoi`; 0 as soon as one of the first three commas is missing. -/
def parseGSVinView (line : List Char) : Int :=
  match restAfterComma line with
  | none => 0
  | some p1 =>
    match restAfterComma p1 with
    | none => 0
    | some p2 =>
      match restAfterComma p2 with
      | none => 0
      | some p3 => atoiC p3

/-- `parseGGAfixQuality`: skip 6 commas, then `atoi`; 0 when the line ends
first (`if (!*p) return 0`, and `atoi("") = 0` covers the boundary case). -/
def parseGGAfixQuality (line : List Char) : Int :=
  match skipCommas 6 line with
  | none => 0
  | some p => atoiC p

/-- `parseGGAHDOP`: skip 8 commas, then `atof`; −1 when the line ends first
or the field is empty. -/
def parseGGAHDOP (line : List Char) : ℚ :=
  match skipCommas 8 line with
  | none => -1
  | some [] => -1
  | some (c :: rest) => if c = ',' then -1 else atofQ (c :: rest)

/-- The `fields[]` array of `parseGGAPosition`: for each `,` or `*`
delimiter (at most 15 fields are collected), the suffix of the line starting
at the field that delimiter terminates.  The entries are suffixes of the
whole line — the source stores `const char*` pointers into the original
buffer, so later `strlen`/`atof` calls see through to the end of the line. -/
def splitGGA : Nat → List Char → List (List Char)
  | 0, _ => []
  | fuel + 1, l =>
    match l.dropWhile (fun c => c != ',' && c != '*') with
    | [] => []
    | _ :: rest => l :: splitGGA fuel rest

/-- `latStr[k] - '0'` as signed C arithmetic. -/
def charVal (c : Char) : Int := (c.toNat : Int) - 48

/-- `parseGGAPosition`: needs ≥ 6 delimited fields; latitude `DDMM.MMMM` with
hemisphere letter in field 3, longitude `DDDMM.MMMM` with hemisphere letter in
field 5; `degrees + minutes/60`, negated for S/W. -/
def parseGGAPosition (line : List Char) : Option (ℚ × ℚ) :=
  let fields := splitGGA 15 line
  if fields.length < 6 then none
  else
    let latStr := fields.getD 2 []
    let latDir := fields.getD 3 []
    if latStr.length < 7 ∨ latDir.length < 1 then none
    else
      let latDeg : ℚ := ((charVal (latStr.getD 0 ' ') * 10 + charVal (latStr.getD 1 ' ') : Int) : ℚ)
      let latMin : ℚ := atofQ (latStr.drop 2)
      let lat0 : ℚ := latDeg + latMin / 60
      let lat : ℚ := if latDir.getD 0 ' ' = 'S' then -lat0 else lat0
      let lonStr := fields.getD 4 []
      let lonDir := fields.getD 5 []
      if lonStr.length < 8 ∨ lonDir.length < 1 then none
      else
        let lonDeg : ℚ :=
          ((charVal (lonStr.getD 0 ' ') * 100 + charVal (lonStr.getD 1 ' ') * 10 +
            charVal (lonStr.getD 2 ' ') : Int) : ℚ)
        let lonMin : ℚ := atofQ (lonStr.drop 3)
        let lon0 : ℚ := lonDeg + lonMin / 60
        let lon : ℚ := if lonDir.getD 0 ' ' = 'W' then -lon0 else lon0
        some (lat, lon)

/-! ## Battery curve and cardinal bucketing -/

/-- C `roundf` (round half away from zero), landing on an `int` via the exact
`(int)` cast of an integral float. -/
def roundfQ (x : ℚ) : Int := if 0 ≤ x then ⌊x + 1 / 2⌋ else -⌊-x + 1 / 2⌋

/-- `voltageToPercent`: the nine-breakpoint piecewise-linear lithium curve. -/
def voltageToPercent (vb : ℚ) : Int :=
  if vb ≥ 4.20 then 100
  else if vb ≥ 4.10 then roundfQ (95 + (vb - 4.10) / (4.20 - 4.10) * 5)
  else if vb ≥ 4.00 then roundfQ (85 + (vb - 4.00) / (4.10 - 4.00) * 10)
  else if vb ≥ 3.90 then roundfQ (70 + (vb - 3.90) / (4.00 - 3.90) * 15)
  else if vb ≥ 3.80 then roundfQ (50 + (vb - 3.80) / (3.90 - 3.80) * 20)
  else if vb ≥ 3.70 then roundfQ (30 + (vb - 3.70) / (3.80 - 3.70) * 20)
  else if vb ≥ 3.60 then roundfQ (15 + (vb - 3.60) / (3.70 - 3.60) * 15)
  else if vb ≥ 3.50 then roundfQ (5 + (vb - 3.50) / (3.60 - 3.50) * 10)
  else if vb ≥ 3.30 then roundfQ ((vb - 3.30) / (3.50 - 3.30) * 5)
  else 0

/-- The pre-rounding value of each branch of `voltageToPercent` (100 above
4.20 V and 0 below 3.30 V), with the slopes multiplied out; used to factor
the monotonicity proof. -/
def pctCurve (vb : ℚ) : ℚ :=
  if vb ≥ 4.20 then 100
  else if vb ≥ 4.10 then 95 + (vb - 4.10) * 50
  else if vb ≥ 4.00 then 85 + (vb - 4.00) * 100
  else if vb ≥ 3.90 then 70 + (vb - 3.90) * 150
  else if vb ≥ 3.80 then 50 + (vb - 3.80) * 200
  else if vb ≥ 3.70 then 30 + (vb - 3.70) * 200
  else if vb ≥ 3.60 then 15 + (vb - 3.60) * 150
  else if vb ≥ 3.50 then 5 + (vb - 3.50) * 100
  else if vb ≥ 3.30 then (vb - 3.30) * 25
  else 0

/-- `getCardinalDirection`: "O" before any fix, "N" before home is
established, then the 8-way bucket chain on the bearing. -/
def getCardinalDirection (haveFix homeEstablished : Bool) (bearingToHome : ℚ) : String :=
  if ¬ haveFix then "O"
  else if ¬ homeEstablished then "N"
  else if bearingToHome ≥ 337.5 ∨ bearingToHome < 22.5 then "N"
  else if bearingToHome ≥ 22.5 ∧ bearingToHome < 67.5 then "NE"
  else if bearingToHome ≥ 67.5 ∧ bearingToHome < 112.5 then "E"
  else if bearingToHome ≥ 112.5 ∧ bearingToHome < 157.5 then "SE"
  else if bearingToHome ≥ 157.5 ∧ bearingToHome < 202.5 then "S"
  else if bearingToHome ≥ 202.5 ∧ bearingToHome < 247.5 then "SW"
  else if bearingToHome ≥ 247.5 ∧ bearingToHome < 292.5 then "W"
  else "NW"

/-- The bucketing the specification describes, stated in its own words:
8 equal 45° buckets centered on the compass points, N covering
[337.5, 360) ∪ [0, 22.5).  Used only to compare `getCardinalDirection`
against the spec. -/
def cardinalSpec (b : ℚ) : String :=
  if 337.5 ≤ b ∨ b < 22.5 then "N"
  else if b < 67.5 then "NE"
  else if b < 112.5 then "E"
  else if b < 157.5 then "SE"
  else if b < 202.5 then "S"
  else if b < 247.5 then "SW"
  else if b < 292.5 then "W"
  else "NW"

/-! ## The tracker state machine -/

/-- The `ScreenType` enumeration. -/
inductive Screen
  | status
  | navGeneric
  | mainMenu
  | waypointMenu
  | waypoint1Nav
  | waypoint2Nav
  | waypoint3Nav
  | setWaypoint
  | systemInfo
  | powerMenu
  | waypointReset
deriving DecidableEq, Repr

/-- Which of the two press actions a `checkButton` call performed. -/
inductive BtnEvent
  | shortPress
  | longPress
deriving DecidableEq, Repr

/-- The in-memory `Waypoint` struct (`name` is a `char[12]`, so at most 11
characters are ever stored). -/
structure Waypoint where
  lat : ℚ
  lon : ℚ
  isSet : Bool
  name : String
deriving DecidableEq, Repr

/-- The mutable state of `HTITTracker` (plus the function-local statics of
`checkButton`, which shadow the members of the same name: `lastButtonState`,
`buttonPressStart` and `longPressHandled` here are those statics).  The
display row caches (`prev*Buf`, `prevDisplayValid`, `forceScreenRedraw`, the
render functions' statics) belong to the Renderer boundary and hold no
navigation/UI-logic state, so they are not part of the model; `halted` marks
that `esp_deep_sleep_start()` ran (it never returns — the device restarts). -/
structure Tracker where
  gpsCount : Int
  glonassCount : Int
  beidouCount : Int
  galileoCount : Int
  qzssCount : Int
  totalInView : Int
  haveFix : Bool
  lastHDOP : ℚ
  homeEstablished : Bool
  homeLat : ℚ
  homeLon : ℚ
  currentLat : ℚ
  currentLon : ℚ
  hasValidPosition : Bool
  waypoints : Fin 3 → Waypoint
  activeWaypoint : Int
  waypointToSet : Int
  waypointToReset : Int
  currentScreen : Screen
  lastScreen : Screen
  menuIndex : Int
  menuItemCount : Int
  inMenu : Bool
  buttonPressed : Bool
  lastButtonPress : Nat
  buttonPressStart : Nat
  longPressHandled : Bool
  lastButtonState : Bool
  lastActivity : Nat
  lineBuf : List Char
  lastLCDupdate : Nat
  lastLat : ℚ
  lastLon : ℚ
  lastSpeedTime : Nat
  currentSpeed : ℚ
  hasValidSpeed : Bool
  batteryReadings : Fin 5 → ℚ
  batteryIndex : Nat
  batteryBufferFull : Bool
  lastBatteryVoltage : ℚ
  isCharging : Bool
  lastChargingCheck : Nat
  eeprom : Nat → Nat
  halted : Bool

/-- `waypoints[i]` with a C `int` index as it appears in the source; the
default is never reached on the in-range indices the code uses. -/
def getWp (wps : Fin 3 → Waypoint) (i : Int) : Waypoint :=
  if h : 0 ≤ i ∧ i < 3 then wps ⟨i.toNat, by omega⟩
  else { lat := 0, lon := 0, isSet := false, name := "" }

/-- `waypoints[i] = w` with a C `int` index. -/
def setWp (wps : Fin 3 → Waypoint) (i : Int) (w : Waypoint) : Fin 3 → Waypoint :=
  fun j => if (j.val : Int) = i then w else wps j

/-- `snprintf(name, 12, "WP%d", k + 1)`. -/
def nameWP (k : Int) : String := "WP" ++ toString (k + 1)

/-- `(ScreenType)(SCREEN_WAYPOINT1_NAV + waypointToReset)` for the in-range
values 0, 1, 2 that reach it. -/
def navScreenFor (k : Int) : Screen :=
  if k = 0 then .waypoint1Nav else if k = 1 then .waypoint2Nav else .waypoint3Nav

/-- Byte image of an in-memory waypoint under the double encoding `enc`. -/
def encodeWp (enc : ℚ → List Nat) (w : Waypoint) : WaypointBytes :=
  { latB := enc w.lat, lonB := enc w.lon, isSet := w.isSet }

/-- `saveWaypointsToEEPROM()` as an effect on the tracker state: serialise
the three in-memory waypoints through the double encoding `enc` into the
EEPROM bytes. -/
def saveWaypointsToEE (enc : ℚ → List Nat) (s : Tracker) : Tracker :=
  { s with eeprom := saveWaypointsToEEPROMBytes (fun i => encodeWp enc (s.waypoints i)) s.eeprom }

/-- `setWaypoint(index, lat, lon, name)`: guarded by `0 <= index < 3`; writes
the waypoint, marks it set, truncates the name to 11 characters (`strncpy`
into `char[12]`), and synchronously persists the whole store.  Out of range:
nothing at all happens. -/
def setWaypoint (enc : ℚ → List Nat) (s : Tracker) (index : Int) (lat lon : ℚ)
    (name : String) : Tracker :=
  if 0 ≤ index ∧ index < 3 then
    let w : Waypoint := { lat := lat, lon := lon, isSet := true, name := name.take 11 }
    saveWaypointsToEE enc { s with waypoints := setWp s.waypoints index w }
  else s

/-- The long-press action block of `checkButton`: scroll the menu index
modulo the item count on the four menu screens, return to the main menu from
anywhere else. -/
def longPressAct (s : Tracker) : Tracker :=
  if s.currentScreen = .mainMenu then { s with menuIndex := Int.tmod (s.menuIndex + 1) 4 }
  else if s.currentScreen = .waypointMenu then { s with menuIndex := Int.tmod (s.menuIndex + 1) 4 }
  else if s.currentScreen = .waypointReset then { s with menuIndex := Int.tmod (s.menuIndex + 1) 3 }
  else if s.currentScreen = .powerMenu then { s with menuIndex := Int.tmod (s.menuIndex + 1) 4 }
  else { s with currentScreen := .mainMenu, menuIndex := 0 }

/-- The short-press dispatch block of `checkButton` (run on release below the
1000 ms threshold).  Sleep-mode notes: item 0 of the power menu light-sleeps
and, once woken, lands on the main menu with index 0, which is the state this
step produces; item 1 deep-sleeps and never returns (`halted`). -/
def shortPressAct (enc : ℚ → List Nat) (s : Tracker) : Tracker :=
  if s.currentScreen = .mainMenu then
    if s.menuIndex = 0 then { s with currentScreen := .status }
    else if s.menuIndex = 1 then { s with currentScreen := .waypointMenu, menuIndex := 0 }
    else if s.menuIndex = 2 then { s with currentScreen := .systemInfo }
    else if s.menuIndex = 3 then { s with currentScreen := .powerMenu }
    else s
  else if s.currentScreen = .waypointMenu then
    if s.menuIndex = 0 then
      if (s.waypoints 0).isSet then
        { s with currentScreen := .waypointReset, waypointToReset := 0, menuIndex := 0 }
      else { s with currentScreen := .setWaypoint, waypointToSet := 0 }
    else if s.menuIndex = 1 then
      if (s.waypoints 1).isSet then
        { s with currentScreen := .waypointReset, waypointToReset := 1, menuIndex := 0 }
      else { s with currentScreen := .setWaypoint, waypointToSet := 1 }
    else if s.menuIndex = 2 then
      if (s.waypoints 2).isSet then
        { s with currentScreen := .waypointReset, waypointToReset := 2, menuIndex := 0 }
      else { s with currentScreen := .setWaypoint, waypointToSet := 2 }
    else if s.menuIndex = 3 then { s with currentScreen := .mainMenu, menuIndex := 2 }
    else s
  else if s.currentScreen = .setWaypoint then
    if s.hasValidPosition && s.haveFix then
      let s1 := setWaypoint enc s s.waypointToSet s.currentLat s.currentLon (nameWP s.waypointToSet)
      { s1 with currentScreen := .waypointMenu, menuIndex := s1.waypointToSet }
    else s
  else if s.currentScreen = .waypointReset then
    if s.menuIndex = 0 then
      { s with currentScreen := navScreenFor s.waypointToReset,
               activeWaypoint := s.waypointToReset + 1 }
    else if s.menuIndex = 1 then
      let cleared : Waypoint := { lat := 0, lon := 0, isSet := false, name := "" }
      let s1 := { s with waypoints := setWp s.waypoints s.waypointToReset cleared }
      let s2 := saveWaypointsToEE enc s1
      { s2 with currentScreen := .setWaypoint, waypointToSet := s2.waypointToReset }
    else if s.menuIndex = 2 then
      { s with currentScreen := .waypointMenu, menuIndex := s.waypointToReset }
    else s
  else if s.currentScreen = .powerMenu then
    if s.menuIndex = 0 then { s with currentScreen := .mainMenu, menuIndex := 0 }
    else if s.menuIndex = 1 then { s with halted := true }
    else if s.menuIndex = 2 then { s with currentScreen := .status }
    else if s.menuIndex = 3 then { s with currentScreen := .mainMenu, menuIndex := 4 }
    else s
  else { s with currentScreen := .mainMenu, menuIndex := 0 }

/-- `checkButton()`: one poll of the active-low button at time `now` with raw
level `currentButtonState` (true = HIGH = released).  Press start on a
HIGH→LOW transition outside the 200 ms debounce window; a single long-press
action once the level has stayed LOW past 1000 ms; on the LOW→HIGH release,
a short-press action when no long press fired and the press lasted under
1000 ms.  Returns the new state and which action (if any) this call ran. -/
def checkButton (enc : ℚ → List Nat) (s : Tracker) (now : Nat)
    (currentButtonState : Bool) : Tracker × Option BtnEvent :=
  let s1 :=
    if s.lastButtonState && !currentButtonState then
      if now - s.lastButtonPress > 200 then
        { s with buttonPressStart := now, longPressHandled := false }
      else s
    else s
  let fireLong := !currentButtonState && !s1.longPressHandled &&
    decide (s1.buttonPressStart > 0) && decide (now - s1.buttonPressStart > 1000)
  let s2 :=
    if fireLong then longPressAct { s1 with longPressHandled := true, lastActivity := now }
    else s1
  let releaseTaken := !s.lastButtonState && currentButtonState && !s2.longPressHandled
  let fireShort := releaseTaken &&
    decide (s2.buttonPressStart > 0) && decide (now - s2.buttonPressStart < 1000)
  let s3 :=
    if fireShort then shortPressAct enc { s2 with lastButtonPress := now, lastActivity := now }
    else s2
  let s4 := if releaseTaken then { s3 with buttonPressStart := 0 } else s3
  ({ s4 with lastButtonState := currentButtonState },
    if fireLong then some .longPress else if fireShort then some .shortPress else none)

/-- `calculateSpeed()`: Haversine distance between the last and current
position (through the external math library, abstracted as `dist`) over the
elapsed time, every 2 s once a previous position exists. -/
def calculateSpeed (dist : ℚ → ℚ → ℚ → ℚ → ℚ) (s : Tracker) (now : Nat) : Tracker :=
  if ¬ s.hasValidPosition then s
  else if s.lastSpeedTime = 0 then
    { s with lastLat := s.currentLat, lastLon := s.currentLon, lastSpeedTime := now }
  else if now - s.lastSpeedTime ≥ 2000 then
    let d := dist s.lastLat s.lastLon s.currentLat s.currentLon
    let timeHours : ℚ := ((now - s.lastSpeedTime : Nat) : ℚ) / 3600000
    let s1 :=
      if timeHours > 0 then
        { s with currentSpeed := d / 1000 / timeHours, hasValidSpeed := true }
      else s
    { s1 with lastLat := s1.currentLat, lastLon := s1.currentLon, lastSpeedTime := now }
  else s

/-- The `$GNGGA` branch of `processNMEALine`: fix quality sets `haveFix`,
HDOP in (0, 100) overwrites `lastHDOP`, a parseable position overwrites the
current position, feeds the speed calculation, and — only while no home is
established and a fix is held — establishes home. -/
def processGGA (dist : ℚ → ℚ → ℚ → ℚ → ℚ) (s : Tracker) (line : List Char)
    (now : Nat) : Tracker :=
  let fixQual := parseGGAfixQuality line
  let s1 := { s with haveFix := decide (fixQual > 0) }
  let hdop := parseGGAHDOP line
  let s2 := if hdop > 0 ∧ hdop < 100 then { s1 with lastHDOP := hdop } else s1
  match parseGGAPosition line with
  | some (lat, lon) =>
    let s3 := { s2 with currentLat := lat, currentLon := lon, hasValidPosition := true }
    let s4 := calculateSpeed dist s3 now
    if s4.haveFix && !s4.homeEstablished then
      { s4 with homeLat := lat, homeLon := lon, homeEstablished := true }
    else s4
  | none => s2

/-- `processNMEALine(line)`: dispatch on the first six characters; after any
line, recompute `totalInView` as the sum of the five constellation counts. -/
def processNMEALine (dist : ℚ → ℚ → ℚ → ℚ → ℚ) (s : Tracker) (line : List Char)
    (now : Nat) : Tracker :=
  let s1 :=
    if strncmpPre ['$', 'G', 'P', 'G', 'S', 'V'] line then
      { s with gpsCount := parseGSVinView line }
    else if strncmpPre ['$', 'G', 'L', 'G', 'S', 'V'] line then
      { s with glonassCount := parseGSVinView line }
    else if strncmpPre ['$', 'G', 'B', 'G', 'S', 'V'] line then
      { s with beidouCount := parseGSVinView line }
    else if strncmpPre ['$', 'G', 'A', 'G', 'S', 'V'] line then
      { s with galileoCount := parseGSVinView line }
    else if strncmpPre ['$', 'G', 'Q', 'G', 'S', 'V'] line then
      { s with qzssCount := parseGSVinView line }
    else if strncmpPre ['$', 'G', 'N', 'G', 'G', 'A'] line then
      processGGA dist s line now
    else s
  { s1 with totalInView :=
      s1.gpsCount + s1.glonassCount + s1.beidouCount + s1.galileoCount + s1.qzssCount }

/-- One serial byte through the line assembler of `update()`: CR/LF
terminates and processes a non-empty buffer; other bytes append while under
the 128-byte capacity (index < 127) and are dropped otherwise. -/
def feedChar (dist : ℚ → ℚ → ℚ → ℚ → ℚ) (s : Tracker) (now : Nat) (c : Char) : Tracker :=
  if c = '\r' ∨ c = '\n' then
    if s.lineBuf ≠ [] then processNMEALine dist { s with lineBuf := [] } s.lineBuf now
    else s
  else if s.lineBuf.length < 127 then { s with lineBuf := s.lineBuf ++ [c] }
  else s

/-- `updateChargingStatus(voltage)`: re-evaluated at most every 10 s;
first call just records; then rising above 4.15 V by more than 0.05 V sets
charging, falling below 4.10 V or by more than 0.02 V clears it, small
changes keep the previous state. -/
def updateChargingStatus (s : Tracker) (voltage : ℚ) (now : Nat) : Tracker :=
  if now - s.lastChargingCheck < 10000 then s
  else if s.lastChargingCheck = 0 then
    { s with lastBatteryVoltage := voltage, lastChargingCheck := now, isCharging := false }
  else
    let voltageChange := voltage - s.lastBatteryVoltage
    let s1 :=
      if voltage > 4.15 ∧ voltageChange > 0.05 then { s with isCharging := true }
      else if voltage < 4.10 ∨ voltageChange < -0.02 then { s with isCharging := false }
      else s
    { s1 with lastBatteryVoltage := voltage, lastChargingCheck := now }

/-- `getStableBatteryPercent(voltage)`: push the raw percentage into the
5-slot rolling buffer; before the buffer first fills return the raw value,
afterwards the rounded mean of the five slots. -/
def getStableBatteryPercent (s : Tracker) (voltage : ℚ) : Int × Tracker :=
  let rawPercent := voltageToPercent voltage
  let s1 := { s with
    batteryReadings := fun j =>
      if j.val = s.batteryIndex % 5 then (rawPercent : ℚ) else s.batteryReadings j
    batteryIndex := (s.batteryIndex + 1) % 5 }
  let s2 :=
    if ¬ s1.batteryBufferFull ∧ s1.batteryIndex = 0 then { s1 with batteryBufferFull := true }
    else s1
  if ¬ s2.batteryBufferFull then (rawPercent, s2)
  else
    let sum := s2.batteryReadings 0 + s2.batteryReadings 1 + s2.batteryReadings 2 +
      s2.batteryReadings 3 + s2.batteryReadings 4
    (roundfQ (sum / 5), s2)

/-- The state-relevant effect of `updateLCD`: the waypoint-navigation screens
bail out to `SetWaypoint` when no waypoint is active; every other branch only
renders (the row caching and drawing live behind the Renderer boundary and
touch no logic state). -/
def updateLCD (s : Tracker) : Tracker :=
  match s.currentScreen with
  | .waypoint1Nav | .waypoint2Nav | .waypoint3Nav =>
    if s.activeWaypoint = 0 then { s with currentScreen := .setWaypoint } else s
  | _ => s

/-- One `update()` loop iteration at time `now`: poll the button, drain the
pending serial bytes through the line assembler, and — once a second — read
the battery (raw ADC code `rawADC`, calibrated with the 5.05 factor), refresh
the charging estimate and rolling percentage, and draw the current screen.
No inactivity-timeout logic exists anywhere in this function. -/
def update (enc : ℚ → List Nat) (dist : ℚ → ℚ → ℚ → ℚ → ℚ) (s : Tracker) (now : Nat)
    (buttonLevel : Bool) (serialInput : List Char) (rawADC : Nat) : Tracker :=
  let s1 := (checkButton enc s now buttonLevel).1
  let s2 := serialInput.foldl (fun t c => feedChar dist t now c) s1
  if now - s2.lastLCDupdate ≥ 1000 then
    let s3 := { s2 with lastLCDupdate := now }
    let vbCal : ℚ := (rawADC : ℚ) / 4095 * 3.3 * 5.05
    let s4 := updateChargingStatus s3 vbCal now
    let s5 := (getStableBatteryPercent s4 vbCal).2
    updateLCD s5
  else s2

/-- Run `checkButton` over a list of `(millis, raw level)` samples,
collecting the press actions performed. -/
def runTrace (enc : ℚ → List Nat) (s : Tracker) : List (Nat × Bool) → Tracker × List BtnEvent
  | [] => (s, [])
  | (t, b) :: rest =>
    let r := checkButton enc s t b
    let w := runTrace enc r.1 rest
    (w.1, r.2.toList ++ w.2)

/-- The constructor state of `HTITTracker` (the `checkButton` statics start
as `lastButtonState = true`, `buttonPressStart = 0`,
`longPressHandled = false`; the EEPROM content at power-up is immaterial to
the claims and taken as all-zero). -/
def initialTracker : Tracker where
  gpsCount := 0
  glonassCount := 0
  beidouCount := 0
  galileoCount := 0
  qzssCount := 0
  totalInView := 0
  haveFix := false
  lastHDOP := 99.99
  homeEstablished := false
  homeLat := 0
  homeLon := 0
  currentLat := 0
  currentLon := 0
  hasValidPosition := false
  waypoints := fun _ => { lat := 0, lon := 0, isSet := false, name := "" }
  activeWaypoint := 0
  waypointToSet := 0
  waypointToReset := 0
  currentScreen := .mainMenu
  lastScreen := .mainMenu
  menuIndex := 0
  menuItemCount := 0
  inMenu := false
  buttonPressed := false
  lastButtonPress := 0
  buttonPressStart := 0
  longPressHandled := false
  lastButtonState := true
  lastActivity := 0
  lineBuf := []
  lastLCDupdate := 0
  lastLat := 0
  lastLon := 0
  lastSpeedTime := 0
  currentSpeed := 0
  hasValidSpeed := false
  batteryReadings := fun _ => 0
  batteryIndex := 0
  batteryBufferFull := false
  lastBatteryVoltage := 0
  isCharging := false
  lastChargingCheck := 0
  eeprom := fun _ => 0
  halted := false

/-- A concrete double encoding for closed instantiations (the claims proved
with it never serialise a value, or never depend on the encoding). -/
def enc0 : ℚ → List Nat := fun _ => List.replicate 8 0

/-- A concrete distance oracle for closed instantiations (no claim depends
on the numeric distance). -/
def dist0 : ℚ → ℚ → ℚ → ℚ → ℚ := fun _ _ _ _ => 0

/-! ## Claim theorems -/

/-- Claim C1 (evidence of the code bug): the waypoint persistence round trip
is NOT exact.  `saveWaypointsToEEPROM` uses `baseAddr = 4 + 20*i`, so the
8-byte longitude of waypoint index 2 occupies EEPROM bytes 52–59, which
overlap the three `isSet` flag bytes at 52, 53, 54 (the file's own
`ADDR_WAYPOINT2_LAT/3_LAT` defines lay the waypoints out with a 16-byte
stride that would not collide).  Saving all three waypoints as set with
waypoint 2's longitude = 1.0 (double bytes `00 00 00 00 00 00 F0 3F`) and
loading back yields `isSet = false` for waypoint 0 and a longitude byte
image for waypoint 2 different from the one saved. -/
theorem c1_eeprom_overlap_corrupts_roundtrip :
    (let oneB : List Nat := [0x00, 0x00, 0x00, 0x00, 0x00, 0x00, 0xF0, 0x3F]
     let zeroB : List Nat := List.replicate 8 0
     let wps : Fin 3 → WaypointBytes := fun i =>
       if i.val = 2 then ⟨zeroB, oneB, true⟩ else ⟨zeroB, zeroB, true⟩
     let mem := saveWaypointsToEEPROMBytes wps (fun _ => 0)
     let loaded := (loadWaypointsFromEEPROMBytes mem).1
     (wps 0).isSet = true ∧ (loaded 0).isSet = false ∧ (loaded 2).lonB ≠ (wps 2).lonB) := by
  decide

/-- Claim C2 (evidence of the code bug): there is no inactivity timeout.
With the screen on `Status`, `lastActivity = 0` and an `update()` at
`now = 40000` ms (40 s of inactivity, button idle, no serial data), the
state machine stays on `Status` instead of being forced back to `MainMenu`:
`update`/`checkButton` never read `lastActivity`. -/
theorem c2_no_inactivity_timeout :
    (update enc0 dist0 { initialTracker with currentScreen := Screen.status } 40000 true [] 0).currentScreen
      = Screen.status := by
  decide

/-- Claim C3 (evidence of the code bug): `menuIndex` escapes the 4-item bound
of `MainMenu`.  From startup: three long presses scroll the main menu to
index 3 (Power Menu), a short press enters the power menu (index stays 3 =
Back), and the next short press runs the power menu's Back branch, which
sets `menuIndex = 4` on returning to `MainMenu` — a leftover from a 5-item
menu, contradicting the adjacent "4 items in main menu now" comment. -/
theorem c3_menuIndex_exceeds_bound :
    (let tr : List (Nat × Bool) :=
      [(1000, false), (2200, false), (2300, true), (3000, false), (4200, false), (4300, true),
       (5000, false), (6200, false), (6300, true), (7000, false), (7100, true),
       (8000, false), (8100, true)]
     (runTrace enc0 initialTracker tr).1.currentScreen = Screen.mainMenu ∧
     (runTrace enc0 initialTracker tr).1.menuIndex = 4) := by
  decide

/-- Claim C10: `setWaypoint` with an index outside 0..2 is a complete no-op:
the guard `index >= 0 && index < 3` fails, so no waypoint slot is touched and
no EEPROM write happens — the state is returned unchanged. -/
theorem c10_setWaypoint_out_of_range_noop (enc : ℚ → List Nat) (s : Tracker) (index : Int)
    (lat lon : ℚ) (name : String) (h : ¬ (0 ≤ index ∧ index < 3)) :
    setWaypoint enc s index lat lon name = s := by
  unfold setWaypoint
  rw [if_neg h]

/-- Witness for C10 at the concrete out-of-range index 3. -/
theorem c10_setWaypoint_out_of_range_noop_witness :
    ¬ ((0 : Int) ≤ 3 ∧ (3 : Int) < 3) ∧
    setWaypoint enc0 initialTracker 3 1 2 "WP4" = initialTracker :=
  ⟨by decide, c10_setWaypoint_out_of_range_noop enc0 initialTracker 3 1 2 "WP4" (by decide)⟩

/-! ### Battery curve lemmas (C7) -/

/-- `roundfQ` fixes 0. -/
theorem roundfQ_zero : roundfQ 0 = 0 := by
  unfold roundfQ
  rw [if_pos (by norm_num)]
  exact Int.floor_eq_iff.mpr (by norm_num)

/-- `roundfQ` fixes 100. -/
theorem roundfQ_hundred : roundfQ 100 = 100 := by
  unfold roundfQ
  rw [if_pos (by norm_num)]
  exact Int.floor_eq_iff.mpr (by norm_num)

/-- The pre-rounding curve never goes negative. -/
theorem pctCurve_nonneg (vb : ℚ) : 0 ≤ pctCurve vb := by
  unfold pctCurve
  split_ifs <;> linarith

/-- The pre-rounding curve never exceeds 100. -/
theorem pctCurve_le_top (vb : ℚ) : pctCurve vb ≤ 100 := by
  unfold pctCurve
  split_ifs <;> linarith

/-- Below each breakpoint the curve stays under that breakpoint's value. -/
theorem pctCurve_ub2 {v : ℚ} (h : v < 4.10) : pctCurve v ≤ 95 := by
  unfold pctCurve; split_ifs <;> linarith

/-- Below 4.00 V the curve stays under 85. -/
theorem pctCurve_ub3 {v : ℚ} (h : v < 4.00) : pctCurve v ≤ 85 := by
  unfold pctCurve; split_ifs <;> linarith

/-- Below 3.90 V the curve stays under 70. -/
theorem pctCurve_ub4 {v : ℚ} (h : v < 3.90) : pctCurve v ≤ 70 := by
  unfold pctCurve; split_ifs <;> linarith

/-- Below 3.80 V the curve stays under 50. -/
theorem pctCurve_ub5 {v : ℚ} (h : v < 3.80) : pctCurve v ≤ 50 := by
  unfold pctCurve; split_ifs <;> linarith

/-- Below 3.70 V the curve stays under 30. -/
theorem pctCurve_ub6 {v : ℚ} (h : v < 3.70) : pctCurve v ≤ 30 := by
  unfold pctCurve; split_ifs <;> linarith

/-- Below 3.60 V the curve stays under 15. -/
theorem pctCurve_ub7 {v : ℚ} (h : v < 3.60) : pctCurve v ≤ 15 := by
  unfold pctCurve; split_ifs <;> linarith

/-- Below 3.50 V the curve stays under 5. -/
theorem pctCurve_ub8 {v : ℚ} (h : v < 3.50) : pctCurve v ≤ 5 := by
  unfold pctCurve; split_ifs <;> linarith

/-- Below 3.30 V the curve is non-positive (in fact zero). -/
theorem pctCurve_ub9 {v : ℚ} (h : v < 3.30) : pctCurve v ≤ 0 := by
  unfold pctCurve; split_ifs <;> linarith

/-- Branch evaluation of `pctCurve`, top segment. -/
theorem pctCurve_eq1 {v : ℚ} (h : 4.20 ≤ v) : pctCurve v = 100 := by
  unfold pctCurve; rw [if_pos h]

/-- Branch evaluation of `pctCurve` on [4.10, 4.20). -/
theorem pctCurve_eq2 {v : ℚ} (h1 : v < 4.20) (h2 : 4.10 ≤ v) :
    pctCurve v = 95 + (v - 4.10) * 50 := by
  unfold pctCurve; rw [if_neg (not_le.mpr h1), if_pos h2]

/-- Branch evaluation of `pctCurve` on [4.00, 4.10). -/
theorem pctCurve_eq3 {v : ℚ} (h1 : v < 4.10) (h2 : 4.00 ≤ v) :
    pctCurve v = 85 + (v - 4.00) * 100 := by
  unfold pctCurve
  rw [if_neg (not_le.mpr (by linarith)), if_neg (not_le.mpr h1), if_pos h2]

/-- Branch evaluation of `pctCurve` on [3.90, 4.00). -/
theorem pctCurve_eq4 {v : ℚ} (h1 : v < 4.00) (h2 : 3.90 ≤ v) :
    pctCurve v = 70 + (v - 3.90) * 150 := by
  unfold pctCurve
  rw [if_neg (not_le.mpr (by linarith)), if_neg (not_le.mpr (by linarith)),
    if_neg (not_le.mpr h1), if_pos h2]

/-- Branch evaluation of `pctCurve` on [3.80, 3.90). -/
theorem pctCurve_eq5 {v : ℚ} (h1 : v < 3.90) (h2 : 3.80 ≤ v) :
    pctCurve v = 50 + (v - 3.80) * 200 := by
  unfold pctCurve
  rw [if_neg (not_le.mpr (by linarith)), if_neg (not_le.mpr (by linarith)),
    if_neg (not_le.mpr (by linarith)), if_neg (not_le.mpr h1), if_pos h2]

/-- Branch evaluation of `pctCurve` on [3.70, 3.80). -/
theorem pctCurve_eq6 {v : ℚ} (h1 : v < 3.80) (h2 : 3.70 ≤ v) :
    pctCurve v = 30 + (v - 3.70) * 200 := by
  unfold pctCurve
  rw [if_neg (not_le.mpr (by linarith)), if_neg (not_le.mpr (by linarith)),
    if_neg (not_le.mpr (by linarith)), if_neg (not_le.mpr (by linarith)),
    if_neg (not_le.mpr h1), if_pos h2]

/-- Branch evaluation of `pctCurve` on [3.60, 3.70). -/
theorem pctCurve_eq7 {v : ℚ} (h1 : v < 3.70) (h2 : 3.60 ≤ v) :
    pctCurve v = 15 + (v - 3.60) * 150 := by
  unfold pctCurve
  rw [if_neg (not_le.mpr (by linarith)), if_neg (not_le.mpr (by linarith)),
    if_neg (not_le.mpr (by linarith)), if_neg (not_le.mpr (by linarith)),
    if_neg (not_le.mpr (by linarith)), if_neg (not_le.mpr h1), if_pos h2]

/-- Branch evaluation of `pctCurve` on [3.50, 3.60). -/
theorem pctCurve_eq8 {v : ℚ} (h1 : v < 3.60) (h2 : 3.50 ≤ v) :
    pctCurve v = 5 + (v - 3.50) * 100 := by
  unfold pctCurve
  rw [if_neg (not_le.mpr (by linarith)), if_neg (not_le.mpr (by linarith)),
    if_neg (not_le.mpr (by linarith)), if_neg (not_le.mpr (by linarith)),
    if_neg (not_le.mpr (by linarith)), if_neg (not_le.mpr (by linarith)),
    if_neg (not_le.mpr h1), if_pos h2]

/-- Branch evaluation of `pctCurve` on [3.30, 3.50). -/
theorem pctCurve_eq9 {v : ℚ} (h1 : v < 3.50) (h2 : 3.30 ≤ v) :
    pctCurve v = (v - 3.30) * 25 := by
  unfold pctCurve
  rw [if_neg (not_le.mpr (by linarith)), if_neg (not_le.mpr (by linarith)),
    if_neg (not_le.mpr (by linarith)), if_neg (not_le.mpr (by linarith)),
    if_neg (not_le.mpr (by linarith)), if_neg (not_le.mpr (by linarith)),
    if_neg (not_le.mpr (by linarith)), if_neg (not_le.mpr h1), if_pos h2]

/-- Branch evaluation of `pctCurve` below 3.30 V. -/
theorem pctCurve_eq10 {v : ℚ} (h1 : v < 3.30) : pctCurve v = 0 := by
  unfold pctCurve
  rw [if_neg (not_le.mpr (by linarith)), if_neg (not_le.mpr (by linarith)),
    if_neg (not_le.mpr (by linarith)), if_neg (not_le.mpr (by linarith)),
    if_neg (not_le.mpr (by linarith)), if_neg (not_le.mpr (by linarith)),
    if_neg (not_le.mpr (by linarith)), if_neg (not_le.mpr (by linarith)),
    if_neg (not_le.mpr h1)]

/-- The pre-rounding curve is monotonically non-decreasing. -/
theorem pctCurve_mono {x y : ℚ} (h : x ≤ y) : pctCurve x ≤ pctCurve y := by
  rcases le_or_lt 4.20 y with hy | hy
  · rw [pctCurve_eq1 hy]; exact pctCurve_le_top x
  · rcases le_or_lt 4.10 y with hy2 | hy2
    · rw [pctCurve_eq2 hy hy2]
      rcases le_or_lt 4.10 x with hx | hx
      · rw [pctCurve_eq2 (lt_of_le_of_lt h hy) hx]; linarith
      · have := pctCurve_ub2 hx; linarith
    · rcases le_or_lt 4.00 y with hy3 | hy3
      · rw [pctCurve_eq3 hy2 hy3]
        rcases le_or_lt 4.00 x with hx | hx
        · rw [pctCurve_eq3 (lt_of_le_of_lt h hy2) hx]; linarith
        · have := pctCurve_ub3 hx; linarith
      · rcases le_or_lt 3.90 y with hy4 | hy4
        · rw [pctCurve_eq4 hy3 hy4]
          rcases le_or_lt 3.90 x with hx | hx
          · rw [pctCurve_eq4 (lt_of_le_of_lt h hy3) hx]; linarith
          · have := pctCurve_ub4 hx; linarith
        · rcases le_or_lt 3.80 y with hy5 | hy5
          · rw [pctCurve_eq5 hy4 hy5]
            rcases le_or_lt 3.80 x with hx | hx
            · rw [pctCurve_eq5 (lt_of_le_of_lt h hy4) hx]; linarith
            · have := pctCurve_ub5 hx; linarith
          · rcases le_or_lt 3.70 y with hy6 | hy6
            · rw [pctCurve_eq6 hy5 hy6]
              rcases le_or_lt 3.70 x with hx | hx
              · rw [pctCurve_eq6 (lt_of_le_of_lt h hy5) hx]; linarith
              · have := pctCurve_ub6 hx; linarith
            · rcases le_or_lt 3.60 y with hy7 | hy7
              · rw [pctCurve_eq7 hy6 hy7]
                rcases le_or_lt 3.60 x with hx | hx
                · rw [pctCurve_eq7 (lt_of_le_of_lt h hy6) hx]; linarith
                · have := pctCurve_ub7 hx; linarith
              · rcases le_or_lt 3.50 y with hy8 | hy8
                · rw [pctCurve_eq8 hy7 hy8]
                  rcases le_or_lt 3.50 x with hx | hx
                  · rw [pctCurve_eq8 (lt_of_le_of_lt h hy7) hx]; linarith
                  · have := pctCurve_ub8 hx; linarith
                · rcases le_or_lt 3.30 y with hy9 | hy9
                  · rw [pctCurve_eq9 hy8 hy9]
                    rcases le_or_lt 3.30 x with hx | hx
                    · rw [pctCurve_eq9 (lt_of_le_of_lt h hy8) hx]; linarith
                    · have := pctCurve_ub9 hx
                      have := pctCurve_nonneg y
                      linarith
                  · rw [pctCurve_eq10 hy9, pctCurve_eq10 (lt_of_le_of_lt h hy9)]

/-- Each branch of `voltageToPercent` is the rounding of the matching branch
of `pctCurve` (the clamped ends are already integral). -/
theorem voltageToPercent_eq_round (vb : ℚ) : voltageToPercent vb = roundfQ (pctCurve vb) := by
  unfold voltageToPercent
  rcases le_or_lt 4.20 vb with h1 | h1
  · rw [if_pos h1, pctCurve_eq1 h1, roundfQ_hundred]
  · rw [if_neg (not_le.mpr h1)]
    rcases le_or_lt 4.10 vb with h2 | h2
    · rw [if_pos h2, pctCurve_eq2 h1 h2]; congr 1; ring
    · rw [if_neg (not_le.mpr h2)]
      rcases le_or_lt 4.00 vb with h3 | h3
      · rw [if_pos h3, pctCurve_eq3 h2 h3]; congr 1; ring
      · rw [if_neg (not_le.mpr h3)]
        rcases le_or_lt 3.90 vb with h4 | h4
        · rw [if_pos h4, pctCurve_eq4 h3 h4]; congr 1; ring
        · rw [if_neg (not_le.mpr h4)]
          rcases le_or_lt 3.80 vb with h5 | h5
          · rw [if_pos h5, pctCurve_eq5 h4 h5]; congr 1; ring
          · rw [if_neg (not_le.mpr h5)]
            rcases le_or_lt 3.70 vb with h6 | h6
            · rw [if_pos h6, pctCurve_eq6 h5 h6]; congr 1; ring
            · rw [if_neg (not_le.mpr h6)]
              rcases le_or_lt 3.60 vb with h7 | h7
              · rw [if_pos h7, pctCurve_eq7 h6 h7]; congr 1; ring
              · rw [if_neg (not_le.mpr h7)]
                rcases le_or_lt 3.50 vb with h8 | h8
                · rw [if_pos h8, pctCurve_eq8 h7 h8]; congr 1; ring
                · rw [if_neg (not_le.mpr h8)]
                  rcases le_or_lt 3.30 vb with h9 | h9
                  · rw [if_pos h9, pctCurve_eq9 h8 h9]; congr 1; ring
                  · rw [if_neg (not_le.mpr h9), pctCurve_eq10 h9, roundfQ_zero]

/-- Claim C7: `voltageToPercent` is monotonically non-decreasing over its
whole domain, hits 100 at 4.20 V and 0 at 3.30 V and 3.0 V, and is clamped
to 0 below 3.30 V and to 100 at or above 4.20 V. -/
theorem c7_voltageToPercent_monotone_clamped :
    (∀ x y : ℚ, x ≤ y → voltageToPercent x ≤ voltageToPercent y) ∧
    voltageToPercent 4.20 = 100 ∧ voltageToPercent 3.30 = 0 ∧ voltageToPercent 3.0 = 0 ∧
    (∀ v : ℚ, v < 3.30 → voltageToPercent v = 0) ∧
    (∀ v : ℚ, 4.20 ≤ v → voltageToPercent v = 100) := by
  have hlow : ∀ v : ℚ, v < 3.30 → voltageToPercent v = 0 := by
    intro v hv
    rw [voltageToPercent_eq_round, pctCurve_eq10 hv, roundfQ_zero]
  have h330 : voltageToPercent 3.30 = 0 := by
    rw [voltageToPercent_eq_round, pctCurve_eq9 (by norm_num) (by norm_num)]
    norm_num [roundfQ_zero]
  refine ⟨?_, ?_, h330, hlow 3.0 (by norm_num), hlow, ?_⟩
  · intro x y hxy
    rw [voltageToPercent_eq_round, voltageToPercent_eq_round]
    unfold roundfQ
    rw [if_pos (pctCurve_nonneg x), if_pos (pctCurve_nonneg y)]
    exact Int.floor_mono (by linarith [pctCurve_mono hxy])
  · rw [voltageToPercent_eq_round, pctCurve_eq1 (by norm_num), roundfQ_hundred]
  · intro v hv
    rw [voltageToPercent_eq_round, pctCurve_eq1 hv, roundfQ_hundred]

/-- Witness for C7 at concrete inputs: 3.95 V ≤ 4.05 V in the monotone part,
3.2 V below the floor clamps to 0, 4.3 V above the ceiling clamps to 100. -/
theorem c7_voltageToPercent_monotone_clamped_witness :
    ((3.95 : ℚ) ≤ 4.05 ∧ voltageToPercent 3.95 ≤ voltageToPercent 4.05) ∧
    ((3.2 : ℚ) < 3.30 ∧ voltageToPercent 3.2 = 0) ∧
    ((4.20 : ℚ) ≤ 4.3 ∧ voltageToPercent 4.3 = 100) :=
  ⟨⟨by norm_num, c7_voltageToPercent_monotone_clamped.1 3.95 4.05 (by norm_num)⟩,
   ⟨by norm_num, c7_voltageToPercent_monotone_clamped.2.2.2.2.1 3.2 (by norm_num)⟩,
   ⟨by norm_num, c7_voltageToPercent_monotone_clamped.2.2.2.2.2 4.3 (by norm_num)⟩⟩

/-! ### Cardinal bucketing (C6) -/

/-- Claim C6: with a fix held and home established, `getCardinalDirection`
realises exactly the spec's 8 equal 45° buckets (N covering
[337.5, 360) ∪ [0, 22.5)) for every bearing in [0, 360), always landing in
the 8 labels; and the four boundary samples 0, 22.4, 22.5, 359.9 map to
N, N, NE, N. -/
theorem c6_cardinal_buckets (b : ℚ) (h0 : 0 ≤ b) (h1 : b < 360) :
    getCardinalDirection true true b = cardinalSpec b ∧
    getCardinalDirection true true b ∈ ["N", "NE", "E", "SE", "S", "SW", "W", "NW"] ∧
    getCardinalDirection true true 0 = "N" ∧
    getCardinalDirection true true 22.4 = "N" ∧
    getCardinalDirection true true 22.5 = "NE" ∧
    getCardinalDirection true true 359.9 = "N" := by
  refine ⟨?_, ?_, by norm_num [getCardinalDirection], by norm_num [getCardinalDirection],
    by norm_num [getCardinalDirection], by norm_num [getCardinalDirection]⟩
  · unfold getCardinalDirection cardinalSpec
    rw [if_neg (by simp), if_neg (by simp)]
    rcases le_or_lt 337.5 b with hA | hA
    · rw [if_pos (Or.inl hA), if_pos (Or.inl hA)]
    · rcases lt_or_le b 22.5 with hB | hB
      · rw [if_pos (Or.inr hB), if_pos (Or.inr hB)]
      · have hno : ¬ (b ≥ 337.5 ∨ b < 22.5) := by push_neg; exact ⟨hA, hB⟩
        rw [if_neg hno, if_neg hno]
        rcases lt_or_le b 67.5 with hC | hC
        · rw [if_pos ⟨hB, hC⟩, if_pos hC]
        · rw [if_neg (by push_neg; intro _; exact hC), if_neg (not_lt.mpr hC)]
          rcases lt_or_le b 112.5 with hD | hD
          · rw [if_pos ⟨hC, hD⟩, if_pos hD]
          · rw [if_neg (by push_neg; intro _; exact hD), if_neg (not_lt.mpr hD)]
            rcases lt_or_le b 157.5 with hE | hE
            · rw [if_pos ⟨hD, hE⟩, if_pos hE]
            · rw [if_neg (by push_neg; intro _; exact hE), if_neg (not_lt.mpr hE)]
              rcases lt_or_le b 202.5 with hF | hF
              · rw [if_pos ⟨hE, hF⟩, if_pos hF]
              · rw [if_neg (by push_neg; intro _; exact hF), if_neg (not_lt.mpr hF)]
                rcases lt_or_le b 247.5 with hG | hG
                · rw [if_pos ⟨hF, hG⟩, if_pos hG]
                · rw [if_neg (by push_neg; intro _; exact hG), if_neg (not_lt.mpr hG)]
                  rcases lt_or_le b 292.5 with hH | hH
                  · rw [if_pos ⟨hG, hH⟩, if_pos hH]
                  · rw [if_neg (by push_neg; intro _; exact hH), if_neg (not_lt.mpr hH)]
  · unfold getCardinalDirection
    rw [if_neg (by simp), if_neg (by simp)]
    split_ifs <;> simp

/-- Witness for C6 at the concrete bearing 100° (an E bucket member). -/
theorem c6_cardinal_buckets_witness :
    (0 : ℚ) ≤ 100 ∧ (100 : ℚ) < 360 ∧
    (getCardinalDirection true true 100 = cardinalSpec 100 ∧
     getCardinalDirection true true 100 ∈ ["N", "NE", "E", "SE", "S", "SW", "W", "NW"] ∧
     getCardinalDirection true true 0 = "N" ∧
     getCardinalDirection true true 22.4 = "N" ∧
     getCardinalDirection true true 22.5 = "NE" ∧
     getCardinalDirection true true 359.9 = "N") :=
  ⟨by norm_num, by norm_num, c6_cardinal_buckets 100 (by norm_num) (by norm_num)⟩

/-- A successful `strncmp` prefix test decomposes the line as pattern ++ rest. -/
theorem strncmpPre_ex : ∀ (p l : List Char), strncmpPre p l = true → ∃ t, l = p ++ t := by
  intro p
  induction p with
  | nil => intro l _; exact ⟨l, rfl⟩
  | cons a ps ih =>
    intro l h
    cases l with
    | nil => simp [strncmpPre] at h
    | cons c cs =>
      unfold strncmpPre at h
      rw [Bool.and_eq_true] at h
      obtain ⟨h1, h2⟩ := h
      obtain ⟨t, ht⟩ := ih cs h2
      refine ⟨t, ?_⟩
      rw [beq_iff_eq] at h1
      rw [h1, ht]
      rfl

/-- `calculateSpeed` never touches the home latitude. -/
theorem calculateSpeed_homeLat (dist : ℚ → ℚ → ℚ → ℚ → ℚ) (s : Tracker) (now : Nat) :
    (calculateSpeed dist s now).homeLat = s.homeLat := by
  unfold calculateSpeed; dsimp only; split_ifs <;> rfl

/-- `calculateSpeed` never touches the home longitude. -/
theorem calculateSpeed_homeLon (dist : ℚ → ℚ → ℚ → ℚ → ℚ) (s : Tracker) (now : Nat) :
    (calculateSpeed dist s now).homeLon = s.homeLon := by
  unfold calculateSpeed; dsimp only; split_ifs <;> rfl

/-- `calculateSpeed` never touches the home-established flag. -/
theorem calculateSpeed_homeEstablished (dist : ℚ → ℚ → ℚ → ℚ → ℚ) (s : Tracker) (now : Nat) :
    (calculateSpeed dist s now).homeEstablished = s.homeEstablished := by
  unfold calculateSpeed; dsimp only; split_ifs <;> rfl

/-- `calculateSpeed` never touches the fix flag. -/
theorem calculateSpeed_haveFix (dist : ℚ → ℚ → ℚ → ℚ → ℚ) (s : Tracker) (now : Nat) :
    (calculateSpeed dist s now).haveFix = s.haveFix := by
  unfold calculateSpeed; dsimp only; split_ifs <;> rfl

/-- Home-establishment behaviour of the `$GNGGA` branch: a report with
positive fix quality and a parseable position, arriving while no home is
established, copies that position into home; once established, no report
moves home. -/
theorem processGGA_home (dist : ℚ → ℚ → ℚ → ℚ → ℚ) (s : Tracker) (line : List Char) (now : Nat) :
    (s.homeEstablished = false → 0 < parseGGAfixQuality line →
      ∀ lat lon, parseGGAPosition line = some (lat, lon) →
        (processGGA dist s line now).homeLat = lat ∧
        (processGGA dist s line now).homeLon = lon ∧
        (processGGA dist s line now).homeEstablished = true) ∧
    (s.homeEstablished = true →
      (processGGA dist s line now).homeLat = s.homeLat ∧
      (processGGA dist s line now).homeLon = s.homeLon ∧
      (processGGA dist s line now).homeEstablished = true) := by
  constructor
  · intro hE hQ lat lon hPos
    have hq' : decide (parseGGAfixQuality line > 0) = true := decide_eq_true hQ
    unfold processGGA
    rw [hPos]
    dsimp only
    split_ifs with h1 h2 h3 <;>
      simp_all [calculateSpeed_haveFix, calculateSpeed_homeEstablished,
        calculateSpeed_homeLat, calculateSpeed_homeLon]
  · intro hE
    unfold processGGA
    rcases hP : parseGGAPosition line with _ | ⟨lat, lon⟩ <;> dsimp only <;>
      split_ifs <;>
      simp_all [calculateSpeed_haveFix, calculateSpeed_homeEstablished,
        calculateSpeed_homeLat, calculateSpeed_homeLon]

/-- Claim C4: HomePoint is established exactly once per power cycle.  The
first `$GNGGA` line with fix quality > 0 and a parseable position copies
that position into `homeLat`/`homeLon` and marks home established; once
`homeEstablished` holds, every further line — `$GNGGA` or not, whatever its
position — leaves `homeLat`/`homeLon` unchanged and home established. -/
theorem c4_home_established_once (dist : ℚ → ℚ → ℚ → ℚ → ℚ) (s : Tracker) (line : List Char)
    (now : Nat) :
    (s.homeEstablished = false →
      strncmpPre ['$', 'G', 'N', 'G', 'G', 'A'] line = true →
      0 < parseGGAfixQuality line →
      ∀ lat lon, parseGGAPosition line = some (lat, lon) →
        (processNMEALine dist s line now).homeLat = lat ∧
        (processNMEALine dist s line now).homeLon = lon ∧
        (processNMEALine dist s line now).homeEstablished = true) ∧
    (s.homeEstablished = true →
      (processNMEALine dist s line now).homeLat = s.homeLat ∧
      (processNMEALine dist s line now).homeLon = s.homeLon ∧
      (processNMEALine dist s line now).homeEstablished = true) := by
  constructor
  · intro hE hPre hQ lat lon hPos
    obtain ⟨t, ht⟩ := strncmpPre_ex _ _ hPre
    subst ht
    obtain ⟨ha, hb, hc⟩ :=
      (processGGA_home dist s (['$', 'G', 'N', 'G', 'G', 'A'] ++ t) now).1 hE hQ lat lon hPos
    unfold processNMEALine
    rw [show strncmpPre ['$', 'G', 'P', 'G', 'S', 'V'] (['$', 'G', 'N', 'G', 'G', 'A'] ++ t) = false from rfl,
        show strncmpPre ['$', 'G', 'L', 'G', 'S', 'V'] (['$', 'G', 'N', 'G', 'G', 'A'] ++ t) = false from rfl,
        show strncmpPre ['$', 'G', 'B', 'G', 'S', 'V'] (['$', 'G', 'N', 'G', 'G', 'A'] ++ t) = false from rfl,
        show strncmpPre ['$', 'G', 'A', 'G', 'S', 'V'] (['$', 'G', 'N', 'G', 'G', 'A'] ++ t) = false from rfl,
        show strncmpPre ['$', 'G', 'Q', 'G', 'S', 'V'] (['$', 'G', 'N', 'G', 'G', 'A'] ++ t) = false from rfl,
        show strncmpPre ['$', 'G', 'N', 'G', 'G', 'A'] (['$', 'G', 'N', 'G', 'G', 'A'] ++ t) = true from rfl]
    simp_all
  · intro hE
    obtain ⟨ha, hb, hc⟩ := (processGGA_home dist s line now).2 hE
    unfold processNMEALine
    split_ifs <;> simp_all

/-- Witness for C4 on the concrete sentence `$GNGGA,0,1234.5,N,12345.6,E,1`
processed from the startup state. -/
theorem c4_home_established_once_witness :
    initialTracker.homeEstablished = false ∧
    strncmpPre ['$', 'G', 'N', 'G', 'G', 'A'] ("$GNGGA,0,1234.5,N,12345.6,E,1".toList) = true ∧
    0 < parseGGAfixQuality ("$GNGGA,0,1234.5,N,12345.6,E,1".toList) ∧
    parseGGAPosition ("$GNGGA,0,1234.5,N,12345.6,E,1".toList) =
      some (((parseGGAPosition ("$GNGGA,0,1234.5,N,12345.6,E,1".toList)).getD (0, 0)).1,
            ((parseGGAPosition ("$GNGGA,0,1234.5,N,12345.6,E,1".toList)).getD (0, 0)).2) ∧
    ((processNMEALine dist0 initialTracker ("$GNGGA,0,1234.5,N,12345.6,E,1".toList) 0).homeLat
        = ((parseGGAPosition ("$GNGGA,0,1234.5,N,12345.6,E,1".toList)).getD (0, 0)).1 ∧
     (processNMEALine dist0 initialTracker ("$GNGGA,0,1234.5,N,12345.6,E,1".toList) 0).homeLon
        = ((parseGGAPosition ("$GNGGA,0,1234.5,N,12345.6,E,1".toList)).getD (0, 0)).2 ∧
     (processNMEALine dist0 initialTracker ("$GNGGA,0,1234.5,N,12345.6,E,1".toList) 0).homeEstablished
        = true) :=
  ⟨rfl, rfl, by decide, rfl,
    (c4_home_established_once dist0 initialTracker ("$GNGGA,0,1234.5,N,12345.6,E,1".toList) 0).1
      rfl rfl (by decide) _ _ rfl⟩

/-! C5 lemmas -/

/-- `takeWhile` stops no later than an element failing the predicate. -/
theorem takeWhile_append_not (p : Char → Bool) (y : Char) (hy : p y = false)
    (xs ys : List Char) : (xs ++ y :: ys).takeWhile p = xs.takeWhile p := by
  induction xs with
  | nil => simp [List.takeWhile, hy]
  | cons a xs ih =>
    by_cases h : p a <;> simp [List.takeWhile, h, ih]

/-- `dropWhile` keeps everything from an element failing the predicate on. -/
theorem dropWhile_append_not (p : Char → Bool) (y : Char) (hy : p y = false)
    (xs ys : List Char) : (xs ++ y :: ys).dropWhile p = xs.dropWhile p ++ y :: ys := by
  induction xs with
  | nil => simp [List.dropWhile, hy]
  | cons a xs ih =>
    by_cases h : p a <;> simp [List.dropWhile, h, ih]

/-- The head that `dropWhile` stops at fails the predicate. -/
theorem dropWhile_head_false (p : Char → Bool) :
    ∀ (l : List Char) (c : Char) (cs : List Char), l.dropWhile p = c :: cs → p c = false := by
  intro l
  induction l with
  | nil => intro c cs h; simp [List.dropWhile] at h
  | cons a as ih =>
    intro c cs h
    by_cases hp : p a
    · rw [List.dropWhile_cons_of_pos hp] at h
      exact ih c cs h
    · rw [List.dropWhile_cons_of_neg hp] at h
      injection h with h1 h2
      rw [← h1]
      simpa using hp

/-- A comma ends the digit run `atoi` accumulates. -/
theorem digitsVal_append_comma (a r : List Char) : digitsVal (a ++ ',' :: r) = digitsVal a := by
  unfold digitsVal
  rw [takeWhile_append_not Char.isDigit ',' rfl a r]

/-- `atoi` never reads past a comma: parsing a field suffix equals parsing
the field alone. -/
theorem atoiC_append_comma (a r : List Char) : atoiC (a ++ ',' :: r) = atoiC a := by
  unfold atoiC
  rw [dropWhile_append_not isSpaceC ',' rfl a r]
  cases h : a.dropWhile isSpaceC with
  | nil =>
    simp only [List.nil_append, List.headD_cons, List.tail_cons, List.headD_nil, List.tail_nil]
    rw [if_neg (by decide), if_neg (by decide), if_neg (by decide), if_neg (by decide)]
    unfold digitsVal
    rw [List.takeWhile_cons_of_neg (by decide)]
    rfl
  | cons c cs =>
    simp only [List.cons_append, List.headD_cons, List.tail_cons]
    by_cases hc : c = '-'
    · subst hc
      rw [if_pos rfl, if_pos rfl, digitsVal_append_comma]
    · rw [if_neg hc, if_neg hc]
      by_cases hc2 : c = '+'
      · subst hc2
        rw [if_pos rfl, if_pos rfl, digitsVal_append_comma]
      · rw [if_neg hc2, if_neg hc2,
          show c :: (cs ++ ',' :: r) = (c :: cs) ++ ',' :: r from rfl, digitsVal_append_comma]

/-- `atoi` of a string equals `atoi` of its comma-free prefix. -/
theorem atoiC_takeWhile_comma (l : List Char) :
    atoiC (l.takeWhile (fun c => c != ',')) = atoiC l := by
  conv_rhs => rw [← List.takeWhile_append_dropWhile (p := fun c => c != ',') (l := l)]
  cases h : l.dropWhile (fun c => c != ',') with
  | nil => rw [List.append_nil]
  | cons c cs =>
    have hc : c = ',' := by
      have := dropWhile_head_false (fun c => c != ',') l c cs h
      simpa using this
    subst hc
    rw [atoiC_append_comma]

/-- Splitting on commas always yields at least one field. -/
theorem splitComma_ne_nil (l : List Char) : splitComma l ≠ [] := by
  induction l with
  | nil => simp [splitComma]
  | cons c rest ih =>
    unfold splitComma
    by_cases h : c = ','
    · simp [h]
    · simp only [h, if_false]
      cases hs : splitComma rest with
      | nil => simp
      | cons f fs => simp

/-- Structure of `splitComma`: head field, then the split of the rest after
the first comma. -/
theorem splitComma_eq (l : List Char) :
    splitComma l = l.takeWhile (fun c => c != ',') ::
      (match restAfterComma l with
       | none => []
       | some r => splitComma r) := by
  induction l with
  | nil => rfl
  | cons c rest ih =>
    by_cases h : c = ','
    · subst h
      rfl
    · have hb : (c != ',') = true := by simpa using h
      have hr : restAfterComma (c :: rest) = restAfterComma rest := by
        unfold restAfterComma
        rw [List.dropWhile_cons_of_pos (p := fun x => x != ',') (l := rest) hb]
      have ht : (c :: rest).takeWhile (fun x => x != ',') =
          c :: rest.takeWhile (fun x => x != ',') :=
        List.takeWhile_cons_of_pos (p := fun x => x != ',') (l := rest) hb
      conv_lhs => unfold splitComma
      rw [if_neg h, ih]
      dsimp only
      rw [hr, ht]

/-- A line with no comma is a single field. -/
theorem splitComma_of_none {l : List Char} (h : restAfterComma l = none) :
    splitComma l = [l.takeWhile (fun c => c != ',')] := by
  have hs := splitComma_eq l
  rw [h] at hs
  exact hs

/-- A line with a comma splits into its head field and the split suffix. -/
theorem splitComma_of_some {l r : List Char} (h : restAfterComma l = some r) :
    splitComma l = l.takeWhile (fun c => c != ',') :: splitComma r := by
  have hs := splitComma_eq l
  rw [h] at hs
  exact hs

/-- Claim C5: for every line with at least 4 comma-delimited fields,
`parseGSVinView` returns exactly the `atoi` of field 3 (0-based); with any
of the first three commas missing (fewer than 4 fields) it returns 0.
This covers in particular every `$GxGSV` sentence. -/
theorem c5_parseGSVinView_field3 (line : List Char) :
    (4 ≤ (splitComma line).length →
      parseGSVinView line = atoiC ((splitComma line).getD 3 [])) ∧
    ((splitComma line).length < 4 → parseGSVinView line = 0) := by
  rcases h1 : restAfterComma line with _ | p1
  · have hs := splitComma_of_none h1
    constructor
    · intro h4; rw [hs] at h4; simp at h4
    · intro _
      unfold parseGSVinView
      rw [h1]
  · have hs := splitComma_of_some h1
    rcases h2 : restAfterComma p1 with _ | p2
    · have hs1 := splitComma_of_none h2
      constructor
      · intro h4; rw [hs, hs1] at h4; simp at h4
      · intro _
        unfold parseGSVinView
        rw [h1]
        dsimp only
        rw [h2]
    · have hs1 := splitComma_of_some h2
      rcases h3 : restAfterComma p2 with _ | p3
      · have hs2 := splitComma_of_none h3
        constructor
        · intro h4; rw [hs, hs1, hs2] at h4; simp at h4
        · intro _
          unfold parseGSVinView
          rw [h1]
          dsimp only
          rw [h2]
          dsimp only
          rw [h3]
      · have hs2 := splitComma_of_some h3
        constructor
        · intro _
          unfold parseGSVinView
          rw [h1]
          dsimp only
          rw [h2]
          dsimp only
          rw [h3]
          dsimp only
          have hget : (splitComma line).getD 3 [] = p3.takeWhile (fun c => c != ',') := by
            rw [hs, hs1, hs2, splitComma_eq p3]
            rfl
          rw [hget, atoiC_takeWhile_comma]
        · intro h4
          have hlen : (splitComma p3).length ≥ 1 := by
            cases hsc : splitComma p3 with
            | nil => exact absurd hsc (splitComma_ne_nil p3)
            | cons f fs => simp
          rw [hs, hs1, hs2] at h4
          simp at h4
          omega

/-- Witness for C5 on the concrete sentence `$GPGSV,3,1,08,04,12` (field 3
is `08`, so the count is 8). -/
theorem c5_parseGSVinView_field3_witness :
    4 ≤ (splitComma ("$GPGSV,3,1,08,04,12".toList)).length ∧
    parseGSVinView ("$GPGSV,3,1,08,04,12".toList) =
      atoiC ((splitComma ("$GPGSV,3,1,08,04,12".toList)).getD 3 []) ∧
    parseGSVinView ("$GPGSV,3,1,08,04,12".toList) = 8 :=
  ⟨by decide, (c5_parseGSVinView_field3 _).1 (by decide), by decide⟩

/-! C8 lemmas -/

/-- The long-press action only changes screen/menu state, never the button
statics. -/
theorem longPressAct_statics (s : Tracker) :
    (longPressAct s).buttonPressStart = s.buttonPressStart ∧
    (longPressAct s).longPressHandled = s.longPressHandled ∧
    (longPressAct s).lastButtonState = s.lastButtonState := by
  unfold longPressAct
  split_ifs <;> exact ⟨rfl, rfl, rfl⟩

/-- A HIGH-to-LOW sample outside the debounce window arms the press and
performs no action. -/
theorem checkButton_press_start (enc : ℚ → List Nat) (s : Tracker) (t0 : Nat)
    (hUp : s.lastButtonState = true) (hDeb : t0 - s.lastButtonPress > 200) :
    checkButton enc s t0 false =
      ({ s with buttonPressStart := t0, longPressHandled := false, lastButtonState := false },
       none) := by
  unfold checkButton
  rw [hUp]
  simp [hDeb]

/-- One sample with the button held LOW: the press stays armed, and a single
long-press action fires exactly when it has not fired yet and the hold has
exceeded 1000 ms. -/
theorem checkButton_hold_step (enc : ℚ → List Nat) (s : Tracker) (t : Nat)
    (hDown : s.lastButtonState = false) :
    (checkButton enc s t false).1.lastButtonState = false ∧
    (checkButton enc s t false).1.buttonPressStart = s.buttonPressStart ∧
    ((checkButton enc s t false).1.longPressHandled =
      (s.longPressHandled ||
        (decide (s.buttonPressStart > 0) && decide (t - s.buttonPressStart > 1000)))) ∧
    ((checkButton enc s t false).2 =
      if (!s.longPressHandled && decide (s.buttonPressStart > 0) &&
          decide (t - s.buttonPressStart > 1000)) = true
       then some BtnEvent.longPress else none) := by
  unfold checkButton
  rw [hDown]
  rcases Bool.eq_false_or_eq_true s.longPressHandled with hL | hL
  · simp [hL]
  · by_cases h1 : s.buttonPressStart > 0
    · by_cases h2 : t - s.buttonPressStart > 1000
      · simp [hL, h1, h2, longPressAct_statics]
      · simp [hL, h1, h2]
    · simp [hL, h1]

/-- Once the long press has been handled, further held samples do nothing. -/
theorem runTrace_hold_handled (enc : ℚ → List Nat) :
    ∀ (holds : List Nat) (s : Tracker) (t0 : Nat),
      s.lastButtonState = false → s.buttonPressStart = t0 → s.longPressHandled = true →
      (runTrace enc s (holds.map (fun t => (t, false)))).1.lastButtonState = false ∧
      (runTrace enc s (holds.map (fun t => (t, false)))).1.buttonPressStart = t0 ∧
      (runTrace enc s (holds.map (fun t => (t, false)))).1.longPressHandled = true ∧
      (runTrace enc s (holds.map (fun t => (t, false)))).2 = [] := by
  intro holds
  induction holds with
  | nil => intro s t0 h1 h2 h3; exact ⟨h1, h2, h3, rfl⟩
  | cons t ts ih =>
    intro s t0 h1 h2 h3
    obtain ⟨a1, a2, a3, a4⟩ := checkButton_hold_step enc s t h1
    rw [h3] at a3 a4
    simp only [Bool.true_or] at a3
    simp only [Bool.not_true, Bool.false_and, Bool.false_eq_true, if_false] at a4
    have := ih (checkButton enc s t false).1 t0 a1 (a2.trans h2) a3
    simp only [List.map_cons, runTrace, a4, List.nil_append]
    exact this

/-- While held with the long press still pending, the first sample past the
1000 ms threshold fires exactly one long-press action. -/
theorem runTrace_hold_fires (enc : ℚ → List Nat) :
    ∀ (holds : List Nat) (s : Tracker) (t0 : Nat),
      s.lastButtonState = false → s.buttonPressStart = t0 → s.longPressHandled = false →
      0 < t0 → (∃ t ∈ holds, t - t0 > 1000) →
      (runTrace enc s (holds.map (fun t => (t, false)))).1.lastButtonState = false ∧
      (runTrace enc s (holds.map (fun t => (t, false)))).1.buttonPressStart = t0 ∧
      (runTrace enc s (holds.map (fun t => (t, false)))).1.longPressHandled = true ∧
      (runTrace enc s (holds.map (fun t => (t, false)))).2 = [BtnEvent.longPress] := by
  intro holds
  induction holds with
  | nil => intro s t0 _ _ _ _ hex; simp at hex
  | cons t ts ih =>
    intro s t0 h1 h2 h3 h4 hex
    obtain ⟨a1, a2, a3, a4⟩ := checkButton_hold_step enc s t h1
    rw [h3, h2] at a3 a4
    simp only [Bool.false_or, Bool.not_false, Bool.true_and] at a3 a4
    have hpos : decide (t0 > 0) = true := decide_eq_true h4
    rw [hpos, Bool.true_and] at a3 a4
    by_cases hfire : t - t0 > 1000
    · have hd : decide (t - t0 > 1000) = true := decide_eq_true hfire
      rw [hd] at a3 a4
      simp only [if_pos rfl] at a4
      obtain ⟨b1, b2, b3, b4⟩ :=
        runTrace_hold_handled enc ts (checkButton enc s t false).1 t0 a1 (a2.trans h2) a3
      simp only [List.map_cons, runTrace, a4, b4]
      exact ⟨b1, b2, b3, rfl⟩
    · have hd : decide (t - t0 > 1000) = false := decide_eq_false hfire
      rw [hd] at a3 a4
      simp only [Bool.false_eq_true, if_false] at a4
      have hex2 : ∃ u ∈ ts, u - t0 > 1000 := by
        rcases hex with ⟨u, hu, hgt⟩
        rcases List.mem_cons.mp hu with rfl | hu2
        · exact absurd hgt hfire
        · exact ⟨u, hu2, hgt⟩
      have := ih (checkButton enc s t false).1 t0 a1 (a2.trans h2) a3 h4 hex2
      simp only [List.map_cons, runTrace, a4, List.nil_append]
      exact this

/-- Releasing the button after a long press fired performs no action: in
particular no short press. -/
theorem checkButton_release_after_long (enc : ℚ → List Nat) (s : Tracker) (tr : Nat)
    (hDown : s.lastButtonState = false) (hHandled : s.longPressHandled = true) :
    (checkButton enc s tr true).2 = none := by
  unfold checkButton
  simp [hDown, hHandled]

/-- Running a sample trace splits at list append. -/
theorem runTrace_append (enc : ℚ → List Nat) (l2 l1 : List (Nat × Bool)) :
    ∀ s : Tracker, runTrace enc s (l1 ++ l2) =
      ((runTrace enc (runTrace enc s l1).1 l2).1,
       (runTrace enc s l1).2 ++ (runTrace enc (runTrace enc s l1).1 l2).2) := by
  induction l1 with
  | nil => intro s; simp [runTrace]
  | cons a l1 ih =>
    intro s
    rcases a with ⟨t, b⟩
    show runTrace enc s ((t, b) :: (l1 ++ l2)) = _
    simp only [runTrace]
    rw [ih ((checkButton enc s t b).1)]
    simp [List.append_assoc]

/-- Claim C8: a press armed at `t0` and held LOW through samples of which at
least one lies past the 1000 ms threshold yields exactly one long-press
action over the whole press — the release sample triggers nothing, in
particular no short press. -/
theorem c8_long_press_exactly_once (enc : ℚ → List Nat) (s0 : Tracker) (t0 tr : Nat)
    (holds : List Nat)
    (hUp : s0.lastButtonState = true)
    (hDeb : t0 - s0.lastButtonPress > 200)
    (hPos : 0 < t0)
    (hHeld : ∃ t ∈ holds, t - t0 > 1000) :
    (runTrace enc s0
      ((t0, false) :: (holds.map (fun t => (t, false)) ++ [(tr, true)]))).2
      = [BtnEvent.longPress] := by
  have step1 := checkButton_press_start enc s0 t0 hUp hDeb
  set s1 : Tracker :=
    { s0 with buttonPressStart := t0, longPressHandled := false, lastButtonState := false }
    with hs1
  obtain ⟨b1, b2, b3, b4⟩ := runTrace_hold_fires enc holds s1 t0 rfl rfl rfl hPos hHeld
  have hrel := checkButton_release_after_long enc
    (runTrace enc s1 (holds.map (fun t => (t, false)))).1 tr b1 b3
  simp only [runTrace, step1]
  rw [runTrace_append]
  simp only [runTrace, hrel, b4]
  simp

/-- Witness for C8: press at 300 ms, held sample at 1500 ms (1200 ms hold),
release at 1600 ms, from the startup state. -/
theorem c8_long_press_exactly_once_witness :
    initialTracker.lastButtonState = true ∧
    (300 : Nat) - initialTracker.lastButtonPress > 200 ∧
    (0 : Nat) < 300 ∧
    (∃ t ∈ [1500], t - 300 > 1000) ∧
    (runTrace enc0 initialTracker
      ((300, false) :: ([1500].map (fun t => (t, false)) ++ [(1600, true)]))).2
      = [BtnEvent.longPress] :=
  ⟨rfl, by decide, by decide, by decide,
    c8_long_press_exactly_once enc0 initialTracker 300 1600 [1500] rfl (by decide) (by decide)
      (by decide)⟩


/-- Claim C9: a short press on the SetWaypoint screen while `hasValidPosition`
and `haveFix` are not both true is rejected locally: the press is consumed as
a short-press event, but no waypoint is written, nothing is persisted to the
EEPROM, and the screen stays on SetWaypoint. -/
theorem c9_setWaypoint_rejected_without_fix (enc : ℚ → List Nat) (s : Tracker) (now : Nat)
    (hDown : s.lastButtonState = false)
    (hNL : s.longPressHandled = false)
    (hStart : 0 < s.buttonPressStart)
    (hShort : now - s.buttonPressStart < 1000)
    (hScr : s.currentScreen = Screen.setWaypoint)
    (hNoGPS : (s.hasValidPosition && s.haveFix) = false) :
    (checkButton enc s now true).1.waypoints = s.waypoints ∧
    (checkButton enc s now true).1.eeprom = s.eeprom ∧
    (checkButton enc s now true).1.currentScreen = Screen.setWaypoint ∧
    (checkButton enc s now true).2 = some BtnEvent.shortPress := by
  unfold checkButton shortPressAct
  simp [hDown, hNL, hScr, hNoGPS, hStart, hShort]

/-- Witness for C9: release at 600 ms of a press armed at 500 ms on the
SetWaypoint screen of the startup state (no fix, no valid position). -/
theorem c9_setWaypoint_rejected_without_fix_witness :
    (let s : Tracker := { initialTracker with currentScreen := Screen.setWaypoint, lastButtonState := false, buttonPressStart := 500 }
     s.lastButtonState = false ∧ s.longPressHandled = false ∧ 0 < s.buttonPressStart ∧
     600 - s.buttonPressStart < 1000 ∧ s.currentScreen = Screen.setWaypoint ∧
     (s.hasValidPosition && s.haveFix) = false ∧
     ((checkButton enc0 s 600 true).1.waypoints = s.waypoints ∧
      (checkButton enc0 s 600 true).1.eeprom = s.eeprom ∧
      (checkButton enc0 s 600 true).1.currentScreen = Screen.setWaypoint ∧
      (checkButton enc0 s 600 true).2 = some BtnEvent.shortPress)) := by
  refine ⟨rfl, rfl, by decide, by decide, rfl, rfl, ?_⟩
  exact c9_setWaypoint_rejected_without_fix enc0 _ 600 rfl rfl (by decide) (by decide) rfl rfl

end Heltec
